import Mathlib

/-!
# Content-moderation plugin: activation and (re)initialisation

A shallow embedding of `server/plugin.go`: `Plugin.OnActivate`,
`Plugin.initialize` and `initModerator`.

The three functions are straight-line Go code over collaborators that live
outside this file (the host API, the configuration methods, the Azure backend
constructor, the post processor).  Every collaborator is a field of `Env`, so
a statement quantified over `Env` holds for every behaviour of the
collaborators.
Each function returns, next to its Go results, the ordered list of the calls
it made (`Event`), which is what "is called exactly once", "is never called"
and "before" are stated on.

Go results of type `(T, error)` are pairs `T × Option GoError`; pointers and
interface values that may be nil are `Option`s.
-/

namespace ContentModeration

/-! ## Errors -/

/-- A Go `error` value: either a leaf error carrying a message
(`fmt.Errorf`, `errors.Errorf`, or an error returned by a collaborator) or an
error wrapped with a message by `errors.Wrap`. -/
inductive GoError where
  | leaf (msg : String)
  | wrapped (cause : GoError) (msg : String)
  deriving DecidableEq, Repr

/-- The text of `err.Error()`: `errors.Wrap(cause, msg)` prints as
`msg: cause`. -/
def GoError.Error : GoError → String
  | .leaf msg => msg
  | .wrapped cause msg => msg ++ ": " ++ cause.Error

/-- The error a wrapped error was built from: the argument `errors.Wrap` was
given. This reads the value of this embedding; it is not a Go library call. -/
def GoError.cause? : GoError → Option GoError
  | .leaf _ => none
  | .wrapped cause _ => some cause

/-- Go `errors.Wrap(err, message)`, used only on a non-nil `err`. -/
def errors.Wrap (err : GoError) (message : String) : GoError :=
  .wrapped err message

/-- Go `errors.Errorf(format, arg)` for a format whose only verb is a
trailing `%s`: `before` is the format without the verb. -/
def errors.Errorf (before : String) (arg : String) : GoError :=
  .leaf (before ++ arg)

/-- Go `fmt.Errorf(msg)` for a format without verbs. -/
def fmt.Errorf (msg : String) : GoError :=
  .leaf msg

/-! ## Data -/

/-- The fields of `configuration` that `plugin.go` reads.  The methods
`ModerationTargetsList` and `ThresholdValue` are collaborators (`Env`). -/
structure configuration where
  Enabled : Bool
  BotUsername : String
  ModerateAllUsers : Bool
  «Type» : String
  Endpoint : String
  APIKey : String
  deriving DecidableEq, Repr

/-- The host type `model.Bot`, of which only `Username` is set. -/
structure model.Bot where
  Username : String
  deriving DecidableEq, Repr

/-- The backend settings `moderation.Config`. -/
structure moderation.Config where
  Endpoint : String
  APIKey : String
  deriving DecidableEq, Repr

/-- A non-nil `moderation.Moderator`, identified by a handle. -/
abbrev Moderator := Nat

/-- A non-nil `*PostProcessor`, identified by its address. -/
abbrev PostProcessor := Nat

/-- The host API object `p.API`, identified by a handle. -/
abbrev API := Nat

/-- The value `ThresholdValue` returns; it is only passed through here. -/
abbrev Threshold := Int

/-- The server configuration `p.API.GetConfig()` returns. -/
abbrev ServerConfig := Nat

/-- The license `p.API.GetLicense()` returns. -/
abbrev License := Nat

/-- The plugin state that `plugin.go` reads and writes. `configuration` is the
snapshot `getConfiguration()` hands out. -/
structure Plugin where
  API : API
  configuration : configuration
  processor : Option PostProcessor
  deriving DecidableEq, Repr

/-- The collaborators of `plugin.go`, with every result they can give. -/
structure Env where
  /-- The host call `p.API.GetConfig()`. -/
  GetConfig : ServerConfig
  /-- The host call `p.API.GetLicense()`. -/
  GetLicense : License
  /-- The check `pluginapi.IsEnterpriseLicensedOrDevelopment`. -/
  IsEnterpriseLicensedOrDevelopment : ServerConfig → License → Bool
  /-- The host call `p.API.EnsureBotUser`: `(botID, err)`. -/
  EnsureBotUser : model.Bot → String × Option GoError
  /-- The method `config.ModerationTargetsList()`. -/
  ModerationTargetsList : configuration → List String
  /-- The method `config.ThresholdValue()`: `(value, err)`. -/
  ThresholdValue : configuration → Threshold × Option GoError
  /-- The constructor `azure.New`: `(mod, err)`. -/
  azureNew : moderation.Config → Option Moderator × Option GoError
  /-- The constructor `newPostProcessor`: `(processor, err)`. -/
  newPostProcessor : String → Option Moderator → Threshold → Bool → List String →
    Option PostProcessor × Option GoError

/-- One call made by the code, with its arguments. -/
inductive Event where
  | GetConfig
  | GetLicense
  | LogInfo (msg : String)
  | LogError (msg : String) (err : GoError)
  | EnsureBotUser (bot : model.Bot)
  | ModerationTargetsList
  | ThresholdValue
  | azureNew (cfg : moderation.Config)
  | newPostProcessor (botID : String) (moderator : Option Moderator)
      (thresholdValue : Threshold) (moderateAllUsers : Bool) (targetUsers : List String)
  | start (processor : Option PostProcessor) (api : API)
  | stop (processor : PostProcessor)
  deriving DecidableEq, Repr

/-- What a method of `Plugin` leaves behind: the plugin state, the returned
`error` and the calls made, oldest first. -/
structure Outcome where
  plugin : Plugin
  err : Option GoError
  trace : List Event
  deriving DecidableEq, Repr

/-- What `initModerator` leaves behind: the returned moderator, the returned
`error` and the calls made, oldest first. -/
structure ModeratorOutcome where
  moderator : Option Moderator
  err : Option GoError
  trace : List Event
  deriving DecidableEq, Repr

/-! ## The code -/

/-- Modelled from the spec: `getConfiguration` is not in `plugin.go`; it
returns the plugin's current configuration snapshot. -/
def Plugin.getConfiguration (p : Plugin) : ContentModeration.configuration :=
  p.configuration

/-- Go `initModerator(api, config)`. -/
def initModerator (env : Env) (config : configuration) : ModeratorOutcome :=
  if config.«Type» = "azure" then
    let azureConfig : moderation.Config :=
      { Endpoint := config.Endpoint, APIKey := config.APIKey }
    match env.azureNew azureConfig with
    | (_, some err) =>
      { moderator := none
        err := some (errors.Wrap err "failed to create Azure moderator")
        trace := [.azureNew azureConfig,
                  .LogError "failed to create Azure moderator" err] }
    | (mod, none) =>
      { moderator := mod
        err := none
        trace := [.azureNew azureConfig,
                  .LogInfo "Azure AI Content Safety moderator initialized"] }
  else
    { moderator := none
      err := some (errors.Errorf "unknown moderator type: " config.«Type»)
      trace := [] }

/-- Go `(p *Plugin) initialize()`. -/
def Plugin.initialize (env : Env) (p0 : Plugin) : Outcome :=
  let (p, t0) : Plugin × List Event :=
    match p0.processor with
    | some old => ({ p0 with processor := none }, [.stop old])
    | none => (p0, [])
  let config := p.getConfiguration
  if !config.Enabled then
    { plugin := p, err := none
      trace := t0 ++ [.LogInfo "Content moderation is disabled"] }
  else
  let bot : model.Bot := { Username := config.BotUsername }
  let t1 := t0 ++ [.EnsureBotUser bot]
  match env.EnsureBotUser bot with
  | (_, some err) =>
    { plugin := p, err := some (errors.Wrap err "could not initialize bot user")
      trace := t1 }
  | (botID, none) =>
  let targetUsers := env.ModerationTargetsList config
  let t2 := t1 ++ [.ModerationTargetsList]
  if targetUsers.length = 0 && !config.ModerateAllUsers then
    { plugin := p, err := none
      trace := t2 ++ [.LogInfo "Content moderation is targeting no users"] }
  else
  let t3 := t2 ++ [.ThresholdValue]
  match env.ThresholdValue config with
  | (_, some err) =>
    { plugin := p, err := some (errors.Wrap err "failed to load moderation threshold")
      trace := t3 ++ [.LogError "failed to load moderation threshold" err] }
  | (thresholdValue, none) =>
  let m := initModerator env config
  let t4 := t3 ++ m.trace
  match m.err with
  | some err =>
    { plugin := p, err := some (errors.Wrap err "failed to initialize moderator")
      trace := t4 }
  | none =>
  let moderator := m.moderator
  let t5 := t4 ++ [.newPostProcessor botID moderator thresholdValue
    config.ModerateAllUsers targetUsers]
  match env.newPostProcessor botID moderator thresholdValue
    config.ModerateAllUsers targetUsers with
  | (_, some err) =>
    { plugin := p, err := some (errors.Wrap err "failed to create post processor")
      trace := t5 ++ [.LogError "failed to create post processor" err] }
  | (processor, none) =>
    { plugin := { p with processor := processor }, err := none
      trace := t5 ++ [.start processor p.API] }

/-- Go `(p *Plugin) OnActivate()`. -/
def Plugin.OnActivate (env : Env) (p : Plugin) : Outcome :=
  if !env.IsEnterpriseLicensedOrDevelopment env.GetConfig env.GetLicense then
    { plugin := p, err := some (fmt.Errorf "this plugin requires an Enterprise license")
      trace := [.GetConfig, .GetLicense] }
  else
    let r := Plugin.initialize env p
    { r with trace := [.GetConfig, .GetLicense] ++ r.trace }

/-! ## Reading a trace -/

/-- The calls the first statement of `initialize` makes: a held processor is
stopped. -/
def stopHeld : Option PostProcessor → List Event
  | some old => [.stop old]
  | none => []

/-- Whether the call is a `stop`. -/
def Event.isStop : Event → Bool
  | .stop _ => true
  | _ => false

/-- Whether the call is a `start`. -/
def Event.isStart : Event → Bool
  | .start _ _ => true
  | _ => false

/-- Whether the call is `EnsureBotUser`. -/
def Event.isEnsureBotUser : Event → Bool
  | .EnsureBotUser _ => true
  | _ => false

/-- Whether the call is `azure.New`. -/
def Event.isAzureNew : Event → Bool
  | .azureNew _ => true
  | _ => false

/-- Whether the call is `newPostProcessor`. -/
def Event.isNewPostProcessor : Event → Bool
  | .newPostProcessor _ _ _ _ _ => true
  | _ => false

/-- Whether the call is `ThresholdValue`. -/
def Event.isThresholdValue : Event → Bool
  | .ThresholdValue => true
  | _ => false

/-- Whether the call is `ModerationTargetsList`. -/
def Event.isModerationTargetsList : Event → Bool
  | .ModerationTargetsList => true
  | _ => false

/-- Whether the call stands after the targets-no-users guard in `initialize`:
the threshold parse, the backend construction, the processor construction or
the processor's start. -/
def Event.pastGuard (e : Event) : Bool :=
  e.isThresholdValue || e.isAzureNew || e.isNewPostProcessor || e.isStart

/-- Whether the call stands after the bot provisioning in `initialize`: the
target-user check or anything past the guard. -/
def Event.pastBot (e : Event) : Bool :=
  e.isModerationTargetsList || e.pastGuard

/-! ## Processors that are running -/

/-- The processors started and not stopped, after one more call. -/
def Event.live (live : List PostProcessor) : Event → List PostProcessor
  | .start (some processor) _ => processor :: live
  | .stop processor => live.erase processor
  | _ => live

/-- The processors started and not stopped after the calls of `trace`, when
`live` were so before. -/
def liveAfter (live : List PostProcessor) (trace : List Event) : List PostProcessor :=
  trace.foldl Event.live live

/-- At most one processor is started and not stopped, before the calls of the
trace and after each of them. -/
def AtMostOneLive : List PostProcessor → List Event → Prop
  | live, [] => live.length ≤ 1
  | live, e :: es => live.length ≤ 1 ∧ AtMostOneLive (e.live live) es

/-- A run of the plugin: `initialize` is called once per entry, after the
configuration was replaced by the entry's, under the entry's collaborators.
The result is the final plugin state and all calls made, oldest first. -/
def reconfigure (p : Plugin) : List (Env × configuration) → Plugin × List Event
  | [] => (p, [])
  | (env, config) :: calls =>
    let r := Plugin.initialize env { p with configuration := config }
    ((reconfigure r.plugin calls).1, r.trace ++ (reconfigure r.plugin calls).2)

/-! ## Names for the steps of `initialize` and `initModerator` -/

/-- The plugin state after the first statement of `initialize`. -/
def Plugin.cleared (p : Plugin) : Plugin :=
  { p with processor := none }

/-- The bot `initialize` asks the host to provision. -/
def Plugin.bot (p : Plugin) : model.Bot :=
  { Username := p.configuration.BotUsername }

/-- The guard of the early return at `plugin.go:56`. -/
def targetsNoUsers (env : Env) (config : configuration) : Bool :=
  (env.ModerationTargetsList config).length = 0 && !config.ModerateAllUsers

/-- The settings `initModerator` hands to `azure.New`. -/
def azureConfigOf (config : configuration) : moderation.Config :=
  { Endpoint := config.Endpoint, APIKey := config.APIKey }

/-- The conditions of the success path of `initialize`: the configuration is
enabled, `EnsureBotUser` succeeds, somebody is targeted, `ThresholdValue`
succeeds, `initModerator` succeeds, and `newPostProcessor`, called on their
results, succeeds. -/
def SuccessPath (env : Env) (p : Plugin) : Prop :=
  p.configuration.Enabled = true ∧
  (env.EnsureBotUser { Username := p.configuration.BotUsername }).2 = none ∧
  (env.ModerationTargetsList p.configuration ≠ [] ∨
    p.configuration.ModerateAllUsers = true) ∧
  (env.ThresholdValue p.configuration).2 = none ∧
  (initModerator env p.configuration).err = none ∧
  (env.newPostProcessor
    (env.EnsureBotUser { Username := p.configuration.BotUsername }).1
    (initModerator env p.configuration).moderator
    (env.ThresholdValue p.configuration).1
    p.configuration.ModerateAllUsers
    (env.ModerationTargetsList p.configuration)).2 = none

/-! ## Example inputs -/

/-- A configuration that is enabled, targets nobody and names the Azure
backend. -/
def exampleConfig : configuration :=
  { Enabled := true, BotUsername := "moderator", ModerateAllUsers := false,
    «Type» := "azure", Endpoint := "https://example.test", APIKey := "key" }

/-- Collaborators that all succeed; the target list is empty. -/
def exampleEnv : Env :=
  { GetConfig := 0, GetLicense := 0
    IsEnterpriseLicensedOrDevelopment := fun _ _ => true
    EnsureBotUser := fun _ => ("bot-id", none)
    ModerationTargetsList := fun _ => []
    ThresholdValue := fun _ => (80, none)
    azureNew := fun _ => (some 1, none)
    newPostProcessor := fun _ _ _ _ _ => (some 7, none) }

/-- A plugin that holds processor `5` under `exampleConfig`. -/
def examplePlugin : Plugin :=
  { API := 3, configuration := exampleConfig, processor := some 5 }

/-- Collaborators under which the threshold does not parse and nobody is
targeted. -/
def invalidThresholdEnv : Env :=
  { exampleEnv with ThresholdValue := fun _ => (0, some (.leaf "invalid threshold")) }

/-- Collaborators that all succeed, with one targeted user. -/
def targetedEnv : Env :=
  { exampleEnv with ModerationTargetsList := fun _ => ["user-1"] }

/-! ## The paths through `initialize` -/

theorem initialize_disabled (env : Env) (p : Plugin)
    (hen : p.configuration.Enabled = false) :
    Plugin.initialize env p =
      { plugin := p.cleared, err := none
        trace := stopHeld p.processor ++ [.LogInfo "Content moderation is disabled"] } := by
  obtain ⟨api, cfg, pr⟩ := p
  cases pr <;> simp_all [Plugin.cleared, Plugin.initialize, stopHeld, Plugin.getConfiguration]

theorem initialize_bot_failed (env : Env) (p : Plugin) (botID : String) (e : GoError)
    (hen : p.configuration.Enabled = true)
    (hbot : env.EnsureBotUser p.bot = (botID, some e)) :
    Plugin.initialize env p =
      { plugin := p.cleared, err := some (errors.Wrap e "could not initialize bot user")
        trace := stopHeld p.processor ++ [.EnsureBotUser p.bot] } := by
  obtain ⟨api, cfg, pr⟩ := p
  cases pr <;>
    simp_all [Plugin.cleared, Plugin.initialize, stopHeld, Plugin.getConfiguration, Plugin.bot]

theorem initialize_inert_path (env : Env) (p : Plugin) (botID : String)
    (hen : p.configuration.Enabled = true)
    (hbot : env.EnsureBotUser p.bot = (botID, none))
    (hno : targetsNoUsers env p.configuration = true) :
    Plugin.initialize env p =
      { plugin := p.cleared, err := none
        trace := stopHeld p.processor ++ [.EnsureBotUser p.bot, .ModerationTargetsList,
          .LogInfo "Content moderation is targeting no users"] } := by
  obtain ⟨api, cfg, pr⟩ := p
  cases pr <;>
    simp_all [Plugin.cleared, Plugin.initialize, stopHeld, Plugin.getConfiguration, Plugin.bot,
      targetsNoUsers]

theorem initialize_threshold_failed (env : Env) (p : Plugin) (botID : String)
    (thr : Threshold) (e : GoError)
    (hen : p.configuration.Enabled = true)
    (hbot : env.EnsureBotUser p.bot = (botID, none))
    (hno : targetsNoUsers env p.configuration = false)
    (hthr : env.ThresholdValue p.configuration = (thr, some e)) :
    Plugin.initialize env p =
      { plugin := p.cleared, err := some (errors.Wrap e "failed to load moderation threshold")
        trace := stopHeld p.processor ++ [.EnsureBotUser p.bot, .ModerationTargetsList,
          .ThresholdValue, .LogError "failed to load moderation threshold" e] } := by
  obtain ⟨api, cfg, pr⟩ := p
  cases pr <;>
    simp_all [Plugin.cleared, Plugin.initialize, stopHeld, Plugin.getConfiguration, Plugin.bot,
      targetsNoUsers]

theorem initialize_moderator_failed (env : Env) (p : Plugin) (botID : String)
    (thr : Threshold) (e : GoError)
    (hen : p.configuration.Enabled = true)
    (hbot : env.EnsureBotUser p.bot = (botID, none))
    (hno : targetsNoUsers env p.configuration = false)
    (hthr : env.ThresholdValue p.configuration = (thr, none))
    (hmod : (initModerator env p.configuration).err = some e) :
    Plugin.initialize env p =
      { plugin := p.cleared, err := some (errors.Wrap e "failed to initialize moderator")
        trace := stopHeld p.processor ++ ([.EnsureBotUser p.bot, .ModerationTargetsList,
          .ThresholdValue] ++ (initModerator env p.configuration).trace) } := by
  obtain ⟨api, cfg, pr⟩ := p
  cases pr <;>
    simp_all [Plugin.cleared, Plugin.initialize, stopHeld, Plugin.getConfiguration, Plugin.bot,
      targetsNoUsers]

theorem initialize_processor_failed (env : Env) (p : Plugin) (botID : String)
    (thr : Threshold) (proc : Option PostProcessor) (e : GoError)
    (hen : p.configuration.Enabled = true)
    (hbot : env.EnsureBotUser p.bot = (botID, none))
    (hno : targetsNoUsers env p.configuration = false)
    (hthr : env.ThresholdValue p.configuration = (thr, none))
    (hmod : (initModerator env p.configuration).err = none)
    (hproc : env.newPostProcessor botID (initModerator env p.configuration).moderator thr
      p.configuration.ModerateAllUsers (env.ModerationTargetsList p.configuration)
        = (proc, some e)) :
    Plugin.initialize env p =
      { plugin := p.cleared, err := some (errors.Wrap e "failed to create post processor")
        trace := stopHeld p.processor ++ ([.EnsureBotUser p.bot, .ModerationTargetsList,
          .ThresholdValue] ++ ((initModerator env p.configuration).trace ++
          [.newPostProcessor botID (initModerator env p.configuration).moderator thr
              p.configuration.ModerateAllUsers (env.ModerationTargetsList p.configuration),
           .LogError "failed to create post processor" e])) } := by
  obtain ⟨api, cfg, pr⟩ := p
  cases pr <;>
    simp_all [Plugin.cleared, Plugin.initialize, stopHeld, Plugin.getConfiguration, Plugin.bot,
      targetsNoUsers]

theorem initialize_started (env : Env) (p : Plugin) (botID : String)
    (thr : Threshold) (proc : Option PostProcessor)
    (hen : p.configuration.Enabled = true)
    (hbot : env.EnsureBotUser p.bot = (botID, none))
    (hno : targetsNoUsers env p.configuration = false)
    (hthr : env.ThresholdValue p.configuration = (thr, none))
    (hmod : (initModerator env p.configuration).err = none)
    (hproc : env.newPostProcessor botID (initModerator env p.configuration).moderator thr
      p.configuration.ModerateAllUsers (env.ModerationTargetsList p.configuration)
        = (proc, none)) :
    Plugin.initialize env p =
      { plugin := { p with processor := proc }, err := none
        trace := stopHeld p.processor ++ ([.EnsureBotUser p.bot, .ModerationTargetsList,
          .ThresholdValue] ++ ((initModerator env p.configuration).trace ++
          [.newPostProcessor botID (initModerator env p.configuration).moderator thr
              p.configuration.ModerateAllUsers (env.ModerationTargetsList p.configuration),
           .start proc p.API])) } := by
  obtain ⟨api, cfg, pr⟩ := p
  cases pr <;>
    simp_all [Plugin.cleared, Plugin.initialize, stopHeld, Plugin.getConfiguration, Plugin.bot,
      targetsNoUsers]

/-- Every call of `initialize` takes one of the seven paths. -/
theorem initialize_cases (env : Env) (p : Plugin) :
    p.configuration.Enabled = false ∨
    (p.configuration.Enabled = true ∧
      ((∃ botID e, env.EnsureBotUser p.bot = (botID, some e)) ∨
       (∃ botID, env.EnsureBotUser p.bot = (botID, none) ∧
        (targetsNoUsers env p.configuration = true ∨
         (targetsNoUsers env p.configuration = false ∧
          ((∃ thr e, env.ThresholdValue p.configuration = (thr, some e)) ∨
           (∃ thr, env.ThresholdValue p.configuration = (thr, none) ∧
            ((∃ e, (initModerator env p.configuration).err = some e) ∨
             ((initModerator env p.configuration).err = none ∧
              ((∃ proc e, env.newPostProcessor botID
                  (initModerator env p.configuration).moderator thr
                  p.configuration.ModerateAllUsers
                  (env.ModerationTargetsList p.configuration) = (proc, some e)) ∨
               (∃ proc, env.newPostProcessor botID
                  (initModerator env p.configuration).moderator thr
                  p.configuration.ModerateAllUsers
                  (env.ModerationTargetsList p.configuration) = (proc, none)))))))))))) := by
  cases hen : p.configuration.Enabled
  · exact Or.inl rfl
  refine Or.inr ⟨rfl, ?_⟩
  rcases hbot : env.EnsureBotUser p.bot with ⟨botID, _ | e⟩
  swap
  · exact Or.inl ⟨botID, e, rfl⟩
  refine Or.inr ⟨botID, rfl, ?_⟩
  cases hno : targetsNoUsers env p.configuration
  swap
  · exact Or.inl rfl
  refine Or.inr ⟨rfl, ?_⟩
  rcases hthr : env.ThresholdValue p.configuration with ⟨thr, _ | e⟩
  swap
  · exact Or.inl ⟨thr, e, rfl⟩
  refine Or.inr ⟨thr, rfl, ?_⟩
  cases hmod : (initModerator env p.configuration).err with
  | some e => exact Or.inl ⟨e, rfl⟩
  | none =>
    refine Or.inr ⟨rfl, ?_⟩
    rcases hproc : env.newPostProcessor botID (initModerator env p.configuration).moderator thr
      p.configuration.ModerateAllUsers (env.ModerationTargetsList p.configuration)
      with ⟨proc, _ | e⟩
    · exact Or.inr ⟨proc, rfl⟩
    · exact Or.inl ⟨proc, e, rfl⟩

/-! ## The paths through `initModerator` -/

theorem initModerator_unknown (env : Env) (config : configuration)
    (hty : config.«Type» ≠ "azure") :
    initModerator env config =
      { moderator := none
        err := some (errors.Errorf "unknown moderator type: " config.«Type»)
        trace := [] } := by
  simp [initModerator, hty]

theorem initModerator_azure_failed (env : Env) (config : configuration)
    (mod : Option Moderator) (e : GoError)
    (hty : config.«Type» = "azure")
    (hnew : env.azureNew (azureConfigOf config) = (mod, some e)) :
    initModerator env config =
      { moderator := none
        err := some (errors.Wrap e "failed to create Azure moderator")
        trace := [.azureNew (azureConfigOf config),
                  .LogError "failed to create Azure moderator" e] } := by
  simp_all [initModerator, azureConfigOf]

theorem initModerator_azure_ok (env : Env) (config : configuration)
    (mod : Option Moderator)
    (hty : config.«Type» = "azure")
    (hnew : env.azureNew (azureConfigOf config) = (mod, none)) :
    initModerator env config =
      { moderator := mod
        err := none
        trace := [.azureNew (azureConfigOf config),
                  .LogInfo "Azure AI Content Safety moderator initialized"] } := by
  simp_all [initModerator, azureConfigOf]

/-- Every call of `initModerator` takes one of the three paths. -/
theorem initModerator_cases (env : Env) (config : configuration) :
    config.«Type» ≠ "azure" ∨
    (config.«Type» = "azure" ∧
      ((∃ mod e, env.azureNew (azureConfigOf config) = (mod, some e)) ∨
       (∃ mod, env.azureNew (azureConfigOf config) = (mod, none)))) := by
  by_cases hty : config.«Type» = "azure"
  · refine Or.inr ⟨hty, ?_⟩
    rcases hnew : env.azureNew (azureConfigOf config) with ⟨mod, _ | e⟩
    · exact Or.inr ⟨mod, rfl⟩
    · exact Or.inl ⟨mod, e, rfl⟩
  · exact Or.inl hty

/-- The calls `initModerator` makes are `azure.New` and logging only. -/
theorem initModerator_trace_countP (env : Env) (config : configuration)
    (f : Event → Bool) (hf : ∀ cfg, f (.azureNew cfg) = false)
    (hinfo : ∀ msg, f (.LogInfo msg) = false) (herr : ∀ msg e, f (.LogError msg e) = false) :
    (initModerator env config).trace.countP f = 0 := by
  rcases initModerator_cases env config with hty | ⟨hty, ⟨mod, e, hnew⟩ | ⟨mod, hnew⟩⟩
  · simp [initModerator_unknown env config hty]
  · simp [initModerator_azure_failed env config mod e hty hnew, hf, herr]
  · simp [initModerator_azure_ok env config mod hty hnew, hf, hinfo]

/-- The first statement of `initialize` makes no call but `stop`. -/
theorem stopHeld_countP (held : Option PostProcessor) (f : Event → Bool)
    (hf : ∀ old, f (.stop old) = false) :
    (stopHeld held).countP f = 0 := by
  cases held <;> simp [stopHeld, hf]

/-- A wrapped Azure failure never prints as the unknown-type error. -/
theorem azure_failure_message_ne (e : GoError) (ty : String) :
    (errors.Wrap e "failed to create Azure moderator").Error
      ≠ "unknown moderator type: " ++ ty := by
  intro h
  have h2 := congrArg (fun s => s.data.head?) h
  simp [errors.Wrap, GoError.Error] at h2

/-! ## One running processor -/

theorem liveAfter_nil (live : List PostProcessor) : liveAfter live [] = live := rfl

theorem liveAfter_cons (live : List PostProcessor) (e : Event) (es : List Event) :
    liveAfter live (e :: es) = liveAfter (e.live live) es := rfl

theorem liveAfter_append (live : List PostProcessor) (t u : List Event) :
    liveAfter live (t ++ u) = liveAfter (liveAfter live t) u := by
  simp [liveAfter]

theorem atMostOneLive_append (live : List PostProcessor) (t u : List Event) :
    AtMostOneLive live (t ++ u) ↔
      AtMostOneLive live t ∧ AtMostOneLive (liveAfter live t) u := by
  induction t generalizing live with
  | nil =>
    cases u <;> simp [AtMostOneLive, liveAfter]
  | cons e es ih =>
    simp [AtMostOneLive, liveAfter, ih, and_assoc]

/-- The recursive reading of `AtMostOneLive` agrees with the reading over the
initial segments of the trace. -/
theorem atMostOneLive_iff_take (live : List PostProcessor) (t : List Event) :
    AtMostOneLive live t ↔ ∀ k, (liveAfter live (t.take k)).length ≤ 1 := by
  induction t generalizing live with
  | nil => simp [AtMostOneLive, liveAfter]
  | cons e es ih =>
    rw [AtMostOneLive, ih]
    constructor
    · rintro ⟨h0, h⟩ k
      cases k with
      | zero => simpa [liveAfter] using h0
      | succ k => simpa [liveAfter] using h k
    · intro h
      refine ⟨by simpa [liveAfter] using h 0, fun k => ?_⟩
      simpa [liveAfter] using h (k + 1)

/-- The calls of `initModerator` start and stop nothing. -/
theorem initModerator_live (env : Env) (config : configuration) (live : List PostProcessor) :
    liveAfter live (initModerator env config).trace = live ∧
    (AtMostOneLive live (initModerator env config).trace ↔ live.length ≤ 1) := by
  rcases initModerator_cases env config with hty | ⟨hty, ⟨mod, e, hnew⟩ | ⟨mod, hnew⟩⟩
  · simp [initModerator_unknown env config hty, liveAfter, AtMostOneLive]
  · simp [initModerator_azure_failed env config mod e hty hnew, liveAfter, AtMostOneLive,
      Event.live]
  · simp [initModerator_azure_ok env config mod hty hnew, liveAfter, AtMostOneLive, Event.live]

/-- Stopping the held processor leaves nothing running, when the held processor
was the only one running. -/
theorem stopHeld_live (held : Option PostProcessor) :
    liveAfter held.toList (stopHeld held) = [] ∧ AtMostOneLive held.toList (stopHeld held) := by
  cases held <;> simp [stopHeld, liveAfter, AtMostOneLive, Event.live]

/-- One call of `initialize`, entered when the held processor is the only one
running: at most one processor runs throughout, and on return the held
processor is the only one running. -/
theorem initialize_live (env : Env) (p : Plugin) :
    AtMostOneLive p.processor.toList ( Plugin.initialize env p).trace ∧
    liveAfter p.processor.toList ( Plugin.initialize env p).trace
      = ( Plugin.initialize env p).plugin.processor.toList := by
  have hs1 := (stopHeld_live p.processor).1
  have hs2 := (stopHeld_live p.processor).2
  have hm1 := fun live => (initModerator_live env p.configuration live).1
  have hm2 := fun live => (initModerator_live env p.configuration live).2
  rcases initialize_cases env p with hen | ⟨hen, ⟨botID, e, hbot⟩ | ⟨botID, hbot, hno |
    ⟨hno, ⟨thr, e, hthr⟩ | ⟨thr, hthr, ⟨e, hmod⟩ | ⟨hmod, ⟨proc, e, hproc⟩ | ⟨proc, hproc⟩⟩⟩⟩⟩⟩
  · rw [initialize_disabled env p hen]
    simp [atMostOneLive_append, liveAfter_append, liveAfter_cons, liveAfter_nil, hs1, hs2,
      Plugin.cleared, AtMostOneLive, Event.live]
  · rw [initialize_bot_failed env p botID e hen hbot]
    simp [atMostOneLive_append, liveAfter_append, liveAfter_cons, liveAfter_nil, hs1, hs2,
      Plugin.cleared, AtMostOneLive, Event.live]
  · rw [initialize_inert_path env p botID hen hbot hno]
    simp [atMostOneLive_append, liveAfter_append, liveAfter_cons, liveAfter_nil, hs1, hs2,
      Plugin.cleared, AtMostOneLive, Event.live]
  · rw [initialize_threshold_failed env p botID thr e hen hbot hno hthr]
    simp [atMostOneLive_append, liveAfter_append, liveAfter_cons, liveAfter_nil, hs1, hs2,
      Plugin.cleared, AtMostOneLive, Event.live]
  · rw [initialize_moderator_failed env p botID thr e hen hbot hno hthr hmod]
    simp [atMostOneLive_append, liveAfter_append, liveAfter_cons, liveAfter_nil, hs1, hs2,
      hm1, hm2, Plugin.cleared, AtMostOneLive, Event.live]
  · rw [initialize_processor_failed env p botID thr proc e hen hbot hno hthr hmod hproc]
    simp [atMostOneLive_append, liveAfter_append, liveAfter_cons, liveAfter_nil, hs1, hs2,
      hm1, hm2, Plugin.cleared, AtMostOneLive, Event.live]
  · rw [initialize_started env p botID thr proc hen hbot hno hthr hmod hproc]
    cases proc <;>
      simp [atMostOneLive_append, liveAfter_append, liveAfter_cons, liveAfter_nil, hs1, hs2,
        hm1, hm2, AtMostOneLive, Event.live]

/-- Over a run entered when the held processor is the only one running, at
most one processor runs throughout, and at the end the held processor is the
only one running. -/
theorem reconfigure_live (p : Plugin) (calls : List (Env × configuration)) :
    AtMostOneLive p.processor.toList (reconfigure p calls).2 ∧
    liveAfter p.processor.toList (reconfigure p calls).2
      = (reconfigure p calls).1.processor.toList := by
  induction calls generalizing p with
  | nil => cases hp : p.processor <;> simp [reconfigure, AtMostOneLive, liveAfter, hp]
  | cons c calls ih =>
    obtain ⟨env, config⟩ := c
    have h1 := initialize_live env { p with configuration := config }
    have h2 := ih ( Plugin.initialize env { p with configuration := config }).plugin
    simp only [reconfigure, atMostOneLive_append, liveAfter_append]
    simp only at h1
    rw [h1.2]
    exact ⟨⟨h1.1, h2.1⟩, h2.2⟩

/-! ## Claims -/

/-- C1: for an enabled configuration whose bot provisioning succeeds, whose
target list is empty and whose `ModerateAllUsers` is false, `initialize`
returns nil, leaves `processor` nil, and makes exactly the calls: stop of a
held processor, `EnsureBotUser`, `ModerationTargetsList`, one info log; so it
never parses the threshold, builds a moderator, builds a processor or calls
`start`. -/
theorem initialize_no_targets_inert (env : Env) (p : Plugin)
    (hen : p.configuration.Enabled = true)
    (hbot : (env.EnsureBotUser { Username := p.configuration.BotUsername }).2 = none)
    (htargets : env.ModerationTargetsList p.configuration = [])
    (hall : p.configuration.ModerateAllUsers = false) :
    ( Plugin.initialize env p).err = none ∧
    ( Plugin.initialize env p).plugin.processor = none ∧
    ( Plugin.initialize env p).trace =
      stopHeld p.processor ++
        [.EnsureBotUser { Username := p.configuration.BotUsername }, .ModerationTargetsList,
         .LogInfo "Content moderation is targeting no users"] ∧
    ( Plugin.initialize env p).trace.countP Event.isThresholdValue = 0 ∧
    ( Plugin.initialize env p).trace.countP Event.isAzureNew = 0 ∧
    ( Plugin.initialize env p).trace.countP Event.isNewPostProcessor = 0 ∧
    ( Plugin.initialize env p).trace.countP Event.isStart = 0 := by
  have hb : env.EnsureBotUser p.bot = ((env.EnsureBotUser p.bot).1, none) :=
    Prod.ext rfl hbot
  have hno : targetsNoUsers env p.configuration = true := by
    simp [targetsNoUsers, htargets, hall]
  rw [initialize_inert_path env p _ hen hb hno]
  cases hp : p.processor <;>
    simp [stopHeld, Plugin.cleared, Plugin.bot, Event.isThresholdValue, Event.isAzureNew,
      Event.isNewPostProcessor, Event.isStart]

/-- Witness of C1 at `examplePlugin`, which holds a processor. -/
theorem initialize_no_targets_inert_witness :
    ( Plugin.initialize exampleEnv examplePlugin).err = none ∧
    ( Plugin.initialize exampleEnv examplePlugin).plugin.processor = none ∧
    ( Plugin.initialize exampleEnv examplePlugin).trace =
      stopHeld examplePlugin.processor ++
        [.EnsureBotUser { Username := examplePlugin.configuration.BotUsername },
         .ModerationTargetsList, .LogInfo "Content moderation is targeting no users"] ∧
    ( Plugin.initialize exampleEnv examplePlugin).trace.countP Event.isThresholdValue = 0 ∧
    ( Plugin.initialize exampleEnv examplePlugin).trace.countP Event.isAzureNew = 0 ∧
    ( Plugin.initialize exampleEnv examplePlugin).trace.countP Event.isNewPostProcessor = 0 ∧
    ( Plugin.initialize exampleEnv examplePlugin).trace.countP Event.isStart = 0 :=
  initialize_no_targets_inert exampleEnv examplePlugin rfl rfl rfl rfl

/-- C2: when `initialize` is entered with a held processor `old`, `stop old`
is its first call and its only `stop`, on every path; on return `processor`
is nil or the processor returned by a `newPostProcessor` call made in this
very execution, it does not depend on which processor was held, and it is not
`old` whenever `newPostProcessor` returns processors other than `old`.
Over every run of `initialize` calls, entered when the held processor is the
only one running, at most one processor is started and not stopped after each
call made, and at the end it is the held one. -/
theorem initialize_stops_old_first :
    (∀ (env : Env) (p : Plugin) (old : PostProcessor), p.processor = some old →
      (∃ rest, ( Plugin.initialize env p).trace = Event.stop old :: rest ∧
        rest.countP Event.isStop = 0) ∧
      ( Plugin.initialize env p).trace.countP Event.isStop = 1 ∧
      (( Plugin.initialize env p).plugin.processor = none ∨
        ∃ botID moderator thr all targets,
          Event.newPostProcessor botID moderator thr all targets
            ∈ ( Plugin.initialize env p).trace ∧
          ( Plugin.initialize env p).plugin.processor
            = (env.newPostProcessor botID moderator thr all targets).1) ∧
      ( Plugin.initialize env p).plugin.processor
        = ( Plugin.initialize env { p with processor := none }).plugin.processor ∧
      ((∀ botID moderator thr all targets,
          (env.newPostProcessor botID moderator thr all targets).1 ≠ some old) →
        ( Plugin.initialize env p).plugin.processor ≠ some old)) ∧
    (∀ (p : Plugin) (calls : List (Env × configuration)) (k : Nat),
      (liveAfter p.processor.toList ((reconfigure p calls).2.take k)).length ≤ 1) ∧
    (∀ (p : Plugin) (calls : List (Env × configuration)),
      liveAfter p.processor.toList (reconfigure p calls).2
        = (reconfigure p calls).1.processor.toList) := by
  refine ⟨?_, fun p calls => (atMostOneLive_iff_take _ _).1 (reconfigure_live p calls).1,
    fun p calls => (reconfigure_live p calls).2⟩
  intro env p old hold
  have hmodS : (initModerator env p.configuration).trace.countP Event.isStop = 0 :=
    initModerator_trace_countP _ _ _ (fun _ => rfl) (fun _ => rfl) (fun _ _ => rfl)
  have hsh : stopHeld p.processor = [Event.stop old] := by rw [hold]; rfl
  rcases initialize_cases env p with hen | ⟨hen, ⟨botID, e, hbot⟩ | ⟨botID, hbot, hno |
    ⟨hno, ⟨thr, e, hthr⟩ | ⟨thr, hthr, ⟨e, hmod⟩ | ⟨hmod, ⟨proc, e, hproc⟩ | ⟨proc, hproc⟩⟩⟩⟩⟩⟩
  · rw [initialize_disabled env p hen, initialize_disabled env { p with processor := none } hen,
      hsh]
    refine ⟨⟨_, rfl, rfl⟩, rfl, Or.inl rfl, rfl, fun _ => ?_⟩
    simp [Plugin.cleared]
  · rw [initialize_bot_failed env p botID e hen hbot,
      initialize_bot_failed env { p with processor := none } botID e hen hbot, hsh]
    refine ⟨⟨_, rfl, rfl⟩, rfl, Or.inl rfl, rfl, fun _ => ?_⟩
    simp [Plugin.cleared]
  · rw [initialize_inert_path env p botID hen hbot hno,
      initialize_inert_path env { p with processor := none } botID hen hbot hno, hsh]
    refine ⟨⟨_, rfl, rfl⟩, rfl, Or.inl rfl, rfl, fun _ => ?_⟩
    simp [Plugin.cleared]
  · rw [initialize_threshold_failed env p botID thr e hen hbot hno hthr,
      initialize_threshold_failed env { p with processor := none } botID thr e hen hbot hno hthr,
      hsh]
    refine ⟨⟨_, rfl, rfl⟩, rfl, Or.inl rfl, rfl, fun _ => ?_⟩
    simp [Plugin.cleared]
  · rw [initialize_moderator_failed env p botID thr e hen hbot hno hthr hmod,
      initialize_moderator_failed env { p with processor := none } botID thr e hen hbot hno hthr
        hmod, hsh]
    refine ⟨⟨_, rfl, ?_⟩, ?_, Or.inl rfl, rfl, fun _ => ?_⟩
    · simp only [List.append_eq, List.countP_append, List.countP_cons, List.countP_nil, hmodS]
      rfl
    · simp only [List.append_eq, List.countP_append, List.countP_cons, List.countP_nil, hmodS]
      rfl
    · simp [Plugin.cleared]
  · rw [initialize_processor_failed env p botID thr proc e hen hbot hno hthr hmod hproc,
      initialize_processor_failed env { p with processor := none } botID thr proc e hen hbot hno
        hthr hmod hproc, hsh]
    refine ⟨⟨_, rfl, ?_⟩, ?_, Or.inl rfl, rfl, fun _ => ?_⟩
    · simp only [List.append_eq, List.countP_append, List.countP_cons, List.countP_nil, hmodS]
      rfl
    · simp only [List.append_eq, List.countP_append, List.countP_cons, List.countP_nil, hmodS]
      rfl
    · simp [Plugin.cleared]
  · rw [initialize_started env p botID thr proc hen hbot hno hthr hmod hproc,
      initialize_started env { p with processor := none } botID thr proc hen hbot hno hthr hmod
        hproc, hsh]
    refine ⟨⟨_, rfl, ?_⟩, ?_, Or.inr ⟨botID, (initModerator env p.configuration).moderator, thr,
      p.configuration.ModerateAllUsers, env.ModerationTargetsList p.configuration, ?_, ?_⟩, rfl,
      fun hfresh => ?_⟩
    · simp only [List.append_eq, List.countP_append, List.countP_cons, List.countP_nil, hmodS]
      rfl
    · simp only [List.append_eq, List.countP_append, List.countP_cons, List.countP_nil, hmodS]
      rfl
    · simp
    · rw [hproc]
    · have := hfresh botID (initModerator env p.configuration).moderator thr
        p.configuration.ModerateAllUsers (env.ModerationTargetsList p.configuration)
      rw [hproc] at this
      exact this

/-- Witness of C2: processor `5` is held and every collaborator succeeds; the
first call is `stop 5` and processor `7` is held on return. -/
theorem initialize_stops_old_first_witness :
    (∃ rest, ( Plugin.initialize targetedEnv examplePlugin).trace = Event.stop 5 :: rest ∧
      rest.countP Event.isStop = 0) ∧
    ( Plugin.initialize targetedEnv examplePlugin).plugin.processor ≠ some 5 :=
  have h := initialize_stops_old_first.1 targetedEnv examplePlugin 5 rfl
  ⟨h.1, h.2.2.2.2 (fun _ _ _ _ _ => show (some 7 : Option PostProcessor) ≠ some 5 by decide)⟩

/-- C3: whenever `initialize` returns a non-nil error, `processor` is nil on
return and no `start` was called; the error is a collaborator failure wrapped
by the step that failed: bot provisioning, threshold, moderator (unknown
backend type or `azure.New` failure) or processor construction. -/
theorem initialize_error_leaves_inactive (env : Env) (p : Plugin)
    (herr : ( Plugin.initialize env p).err ≠ none) :
    ( Plugin.initialize env p).plugin.processor = none ∧
    ( Plugin.initialize env p).trace.countP Event.isStart = 0 ∧
    ∃ cause msg, ( Plugin.initialize env p).err = some (errors.Wrap cause msg) ∧
      (msg = "could not initialize bot user" ∨
       msg = "failed to load moderation threshold" ∨
       (msg = "failed to initialize moderator" ∧
        (cause = errors.Errorf "unknown moderator type: " p.configuration.«Type» ∨
         ∃ e, cause = errors.Wrap e "failed to create Azure moderator")) ∨
       msg = "failed to create post processor") := by
  have hstop : (stopHeld p.processor).countP Event.isStart = 0 :=
    stopHeld_countP _ _ (fun _ => rfl)
  have hmodS : (initModerator env p.configuration).trace.countP Event.isStart = 0 :=
    initModerator_trace_countP _ _ _ (fun _ => rfl) (fun _ => rfl) (fun _ _ => rfl)
  rcases initialize_cases env p with hen | ⟨hen, ⟨botID, e, hbot⟩ | ⟨botID, hbot, hno |
    ⟨hno, ⟨thr, e, hthr⟩ | ⟨thr, hthr, ⟨e, hmod⟩ | ⟨hmod, ⟨proc, e, hproc⟩ | ⟨proc, hproc⟩⟩⟩⟩⟩⟩
  · rw [initialize_disabled env p hen] at herr
    exact absurd rfl herr
  · rw [initialize_bot_failed env p botID e hen hbot]
    refine ⟨rfl, ?_, e, _, rfl, Or.inl rfl⟩
    simp only [List.countP_append, List.countP_cons, List.countP_nil, hstop]
    rfl
  · rw [initialize_inert_path env p botID hen hbot hno] at herr
    exact absurd rfl herr
  · rw [initialize_threshold_failed env p botID thr e hen hbot hno hthr]
    refine ⟨rfl, ?_, e, _, rfl, Or.inr (Or.inl rfl)⟩
    simp only [List.countP_append, List.countP_cons, List.countP_nil, hstop]
    rfl
  · rw [initialize_moderator_failed env p botID thr e hen hbot hno hthr hmod]
    refine ⟨rfl, ?_, e, _, rfl, Or.inr (Or.inr (Or.inl ⟨rfl, ?_⟩))⟩
    · simp only [List.countP_append, List.countP_cons, List.countP_nil, hstop, hmodS]
      rfl
    · rcases initModerator_cases env p.configuration with
        hty | ⟨hty, ⟨mod, e', hnew⟩ | ⟨mod, hnew⟩⟩
      · rw [initModerator_unknown env _ hty] at hmod
        exact Or.inl (Option.some.inj hmod).symm
      · rw [initModerator_azure_failed env _ mod e' hty hnew] at hmod
        exact Or.inr ⟨e', (Option.some.inj hmod).symm⟩
      · rw [initModerator_azure_ok env _ mod hty hnew] at hmod
        exact absurd hmod (by simp)
  · rw [initialize_processor_failed env p botID thr proc e hen hbot hno hthr hmod hproc]
    refine ⟨rfl, ?_, e, _, rfl, Or.inr (Or.inr (Or.inr rfl))⟩
    simp only [List.countP_append, List.countP_cons, List.countP_nil, hstop, hmodS]
    rfl
  · rw [initialize_started env p botID thr proc hen hbot hno hthr hmod hproc] at herr
    exact absurd rfl herr

/-- Witness of C3: the processor construction fails (after a processor value
was returned next to the error) while a processor is held. -/
theorem initialize_error_leaves_inactive_witness :
    ( Plugin.initialize
        { exampleEnv with newPostProcessor := fun _ _ _ _ _ => (some 9, some (.leaf "boom")) }
        { examplePlugin with
          configuration := { exampleConfig with ModerateAllUsers := true } }).plugin.processor
      = none :=
  (initialize_error_leaves_inactive _ _ (by decide)).1

/-- C4, as stated, fails: an enabled configuration whose threshold does not
parse, with a provisioned bot, an empty target list and `ModerateAllUsers`
false, makes `initialize` return nil. -/
theorem initialize_invalid_threshold_counterexample :
    examplePlugin.configuration.Enabled = true ∧
    (invalidThresholdEnv.ThresholdValue examplePlugin.configuration).2
      = some (.leaf "invalid threshold") ∧
    ( Plugin.initialize invalidThresholdEnv examplePlugin).err = none ∧
    ( Plugin.initialize invalidThresholdEnv examplePlugin).trace.countP
      Event.isThresholdValue = 0 := by
  decide

/-- C4, amended: for an enabled configuration whose `ThresholdValue()` fails,
`initialize` installs no processor, and it returns a non-nil error unless the
bot provisioning succeeded and the configuration targets no users (empty target
list, `ModerateAllUsers` false), in which case it returns nil and never calls
`ThresholdValue`; when the bot provisioning succeeded and somebody is
targeted, the error is the threshold failure wrapped with
"failed to load moderation threshold". -/
theorem initialize_invalid_threshold (env : Env) (p : Plugin) (e : GoError)
    (hen : p.configuration.Enabled = true)
    (hthr : (env.ThresholdValue p.configuration).2 = some e) :
    ( Plugin.initialize env p).plugin.processor = none ∧
    (( Plugin.initialize env p).err ≠ none ↔
      ¬ ((env.EnsureBotUser { Username := p.configuration.BotUsername }).2 = none ∧
         env.ModerationTargetsList p.configuration = [] ∧
         p.configuration.ModerateAllUsers = false)) ∧
    ((env.EnsureBotUser { Username := p.configuration.BotUsername }).2 = none →
      (env.ModerationTargetsList p.configuration ≠ [] ∨
        p.configuration.ModerateAllUsers = true) →
      ( Plugin.initialize env p).err
        = some (errors.Wrap e "failed to load moderation threshold")) ∧
    ((env.EnsureBotUser { Username := p.configuration.BotUsername }).2 = none →
      env.ModerationTargetsList p.configuration = [] →
      p.configuration.ModerateAllUsers = false →
      ( Plugin.initialize env p).err = none ∧
      ( Plugin.initialize env p).trace.countP Event.isThresholdValue = 0 ∧
      ( Plugin.initialize env p).trace =
        stopHeld p.processor ++
          [.EnsureBotUser { Username := p.configuration.BotUsername }, .ModerationTargetsList,
           .LogInfo "Content moderation is targeting no users"]) := by
  have hinert : (env.EnsureBotUser p.bot).2 = none →
      env.ModerationTargetsList p.configuration = [] →
      p.configuration.ModerateAllUsers = false →
      ( Plugin.initialize env p).err = none ∧
      ( Plugin.initialize env p).trace.countP Event.isThresholdValue = 0 ∧
      ( Plugin.initialize env p).trace =
        stopHeld p.processor ++
          [.EnsureBotUser p.bot, .ModerationTargetsList,
           .LogInfo "Content moderation is targeting no users"] := by
    intro hb ht ha
    have hbot : env.EnsureBotUser p.bot = ((env.EnsureBotUser p.bot).1, none) :=
      Prod.ext rfl hb
    have hno : targetsNoUsers env p.configuration = true := by
      simp [targetsNoUsers, ht, ha]
    have hstopT : (stopHeld p.processor).countP Event.isThresholdValue = 0 :=
      stopHeld_countP _ _ (fun _ => rfl)
    rw [initialize_inert_path env p _ hen hbot hno]
    refine ⟨rfl, ?_, rfl⟩
    simp only [List.countP_append, List.countP_cons, List.countP_nil, hstopT]
    rfl
  have hmain : ( Plugin.initialize env p).plugin.processor = none ∧
      (( Plugin.initialize env p).err ≠ none ↔
        ¬ ((env.EnsureBotUser p.bot).2 = none ∧
           env.ModerationTargetsList p.configuration = [] ∧
           p.configuration.ModerateAllUsers = false)) ∧
      ((env.EnsureBotUser p.bot).2 = none →
        (env.ModerationTargetsList p.configuration ≠ [] ∨
          p.configuration.ModerateAllUsers = true) →
        ( Plugin.initialize env p).err
          = some (errors.Wrap e "failed to load moderation threshold")) := by
    rcases initialize_cases env p with hdis | ⟨-, ⟨botID, e', hbot⟩ | ⟨botID, hbot, hno |
      ⟨hno, ⟨thr, e', hthr'⟩ | ⟨thr, hthr', -⟩⟩⟩⟩
    · simp [hen] at hdis
    · rw [initialize_bot_failed env p botID e' hen hbot]
      simp [hbot, Plugin.cleared]
    · rw [initialize_inert_path env p botID hen hbot hno]
      simp only [targetsNoUsers, Bool.and_eq_true, decide_eq_true_eq, Bool.not_eq_true',
        List.length_eq_zero] at hno
      simp [hbot, hno, Plugin.cleared]
    · rw [initialize_threshold_failed env p botID thr e' hen hbot hno hthr']
      have hee : e' = e := by
        rw [hthr'] at hthr
        exact Option.some.inj hthr
      have hno' : ¬ (env.ModerationTargetsList p.configuration = [] ∧
          p.configuration.ModerateAllUsers = false) := by
        intro h
        simp [targetsNoUsers, h.1, h.2] at hno
      simp [hbot, hee, Plugin.cleared, hno']
    · rw [hthr'] at hthr
      exact absurd hthr (by simp)
  exact ⟨hmain.1, hmain.2.1, hmain.2.2, hinert⟩

/-- Witness of C4 amended: with everybody moderated the invalid threshold is
returned as an error; with nobody targeted the result is nil and
`ThresholdValue` is never called. -/
theorem initialize_invalid_threshold_witness :
    ( Plugin.initialize invalidThresholdEnv
        { examplePlugin with
          configuration := { exampleConfig with ModerateAllUsers := true } }).err
      = some (errors.Wrap (.leaf "invalid threshold") "failed to load moderation threshold") ∧
    ( Plugin.initialize invalidThresholdEnv examplePlugin).err = none ∧
    ( Plugin.initialize invalidThresholdEnv examplePlugin).trace.countP
      Event.isThresholdValue = 0 :=
  ⟨(initialize_invalid_threshold _ _ (.leaf "invalid threshold") rfl rfl).2.2.1 rfl (Or.inr rfl),
   ((initialize_invalid_threshold invalidThresholdEnv examplePlugin (.leaf "invalid threshold")
      rfl rfl).2.2.2 rfl rfl rfl).1,
   ((initialize_invalid_threshold invalidThresholdEnv examplePlugin (.leaf "invalid threshold")
      rfl rfl).2.2.2 rfl rfl rfl).2.1⟩

/-- C5: `initModerator` accepts exactly the backend type "azure". For any other
`Type`, the empty string included, it returns a nil moderator and the error
whose text is "unknown moderator type: " followed by the `Type`, and makes no
call at all (so none to `azure.New`); for `Type == "azure"` the error it
returns, if any, is not that error and does not print as it. -/
theorem initModerator_accepts_only_azure (env : Env) (config : configuration) :
    (config.«Type» ≠ "azure" →
      (initModerator env config).moderator = none ∧
      (∃ e, (initModerator env config).err = some e ∧
        e.Error = "unknown moderator type: " ++ config.«Type») ∧
      (initModerator env config).trace = [] ∧
      (initModerator env config).trace.countP Event.isAzureNew = 0) ∧
    (config.«Type» = "azure" →
      (initModerator env config).err
        ≠ some (errors.Errorf "unknown moderator type: " config.«Type») ∧
      ∀ e, (initModerator env config).err = some e →
        e.Error ≠ "unknown moderator type: " ++ config.«Type») := by
  constructor
  · intro hty
    rw [initModerator_unknown env config hty]
    exact ⟨rfl, ⟨_, rfl, rfl⟩, rfl, rfl⟩
  · intro hty
    rcases initModerator_cases env config with
      hne | ⟨-, ⟨mod, e', hnew⟩ | ⟨mod, hnew⟩⟩
    · exact absurd hty hne
    · rw [initModerator_azure_failed env config mod e' hty hnew]
      refine ⟨by simp [errors.Wrap, errors.Errorf], ?_⟩
      intro e he
      rw [← Option.some.inj he]
      exact azure_failure_message_ne e' _
    · rw [initModerator_azure_ok env config mod hty hnew]
      exact ⟨by simp, fun e he => absurd he (by simp)⟩

/-- Witness of C5: the types "Azure" (wrong case) and "azure". -/
theorem initModerator_accepts_only_azure_witness :
    ((initModerator exampleEnv { exampleConfig with «Type» := "Azure" }).moderator = none ∧
     (∃ e, (initModerator exampleEnv { exampleConfig with «Type» := "Azure" }).err = some e ∧
        e.Error = "unknown moderator type: " ++ "Azure") ∧
     (initModerator exampleEnv { exampleConfig with «Type» := "Azure" }).trace = [] ∧
     (initModerator exampleEnv { exampleConfig with «Type» := "Azure" }).trace.countP
        Event.isAzureNew = 0) ∧
    (initModerator exampleEnv exampleConfig).err
      ≠ some (errors.Errorf "unknown moderator type: " "azure") :=
  ⟨(initModerator_accepts_only_azure exampleEnv { exampleConfig with «Type» := "Azure" }).1
      (by decide),
   ((initModerator_accepts_only_azure exampleEnv exampleConfig).2 rfl).1⟩

/-- C6: for `Type == "azure"`, `initModerator` calls `azure.New` exactly once,
first, with the configuration's `Endpoint` and `APIKey` unchanged; when
`azure.New` returns a nil error the result is the moderator it returned and a
nil error; when it returns an error the result is a nil moderator and that
error wrapped with "failed to create Azure moderator". -/
theorem initModerator_azure (env : Env) (config : configuration)
    (hty : config.«Type» = "azure") :
    (initModerator env config).trace.countP Event.isAzureNew = 1 ∧
    (initModerator env config).trace.head?
      = some (.azureNew { Endpoint := config.Endpoint, APIKey := config.APIKey }) ∧
    ((env.azureNew { Endpoint := config.Endpoint, APIKey := config.APIKey }).2 = none →
      (initModerator env config).moderator
        = (env.azureNew { Endpoint := config.Endpoint, APIKey := config.APIKey }).1 ∧
      (initModerator env config).err = none) ∧
    (∀ e, (env.azureNew { Endpoint := config.Endpoint, APIKey := config.APIKey }).2 = some e →
      (initModerator env config).moderator = none ∧
      (initModerator env config).err
        = some (errors.Wrap e "failed to create Azure moderator") ∧
      (errors.Wrap e "failed to create Azure moderator").cause? = some e) := by
  show _ ∧ _ = some (Event.azureNew (azureConfigOf config)) ∧
    ((env.azureNew (azureConfigOf config)).2 = none →
      _ = (env.azureNew (azureConfigOf config)).1 ∧ _) ∧
    (∀ e, (env.azureNew (azureConfigOf config)).2 = some e → _)
  rcases initModerator_cases env config with
    hne | ⟨-, ⟨mod, e', hnew⟩ | ⟨mod, hnew⟩⟩
  · exact absurd hty hne
  · rw [initModerator_azure_failed env config mod e' hty hnew]
    refine ⟨rfl, rfl, ?_, ?_⟩
    · simp [hnew]
    · intro e he
      rw [hnew] at he
      cases he
      exact ⟨rfl, rfl, rfl⟩
  · rw [initModerator_azure_ok env config mod hty hnew]
    refine ⟨rfl, rfl, ?_, ?_⟩ <;> simp [hnew]

/-- Witness of C6: `azure.New` fails after returning a moderator value. -/
theorem initModerator_azure_witness :
    (initModerator { exampleEnv with azureNew := fun _ => (some 4, some (.leaf "denied")) }
        exampleConfig).moderator = none ∧
    (initModerator { exampleEnv with azureNew := fun _ => (some 4, some (.leaf "denied")) }
        exampleConfig).err
      = some (errors.Wrap (.leaf "denied") "failed to create Azure moderator") ∧
    (errors.Wrap (.leaf "denied") "failed to create Azure moderator").cause?
      = some (.leaf "denied") :=
  (initModerator_azure _ exampleConfig rfl).2.2.2 (.leaf "denied") rfl

/-- C7: when the license check is false, `OnActivate` returns the error
"this plugin requires an Enterprise license", leaves the plugin untouched, and
its only calls are the two host reads the check takes (`initialize` is not
run); when the check is true, its result and plugin state are those of
`initialize`, and its calls are the two host reads followed by those of
`initialize`. -/
theorem OnActivate_license_gate (env : Env) (p : Plugin) :
    (env.IsEnterpriseLicensedOrDevelopment env.GetConfig env.GetLicense = false →
      (∃ e, ( Plugin.OnActivate env p).err = some e ∧
        e.Error = "this plugin requires an Enterprise license") ∧
      ( Plugin.OnActivate env p).plugin = p ∧
      ( Plugin.OnActivate env p).trace = [.GetConfig, .GetLicense]) ∧
    (env.IsEnterpriseLicensedOrDevelopment env.GetConfig env.GetLicense = true →
      ( Plugin.OnActivate env p).err = ( Plugin.initialize env p).err ∧
      ( Plugin.OnActivate env p).plugin = ( Plugin.initialize env p).plugin ∧
      ( Plugin.OnActivate env p).trace
        = [.GetConfig, .GetLicense] ++ ( Plugin.initialize env p).trace) := by
  constructor
  · intro h
    simp [Plugin.OnActivate, h, fmt.Errorf, GoError.Error]
  · intro h
    simp [Plugin.OnActivate, h]

/-- Witness of C7: without a license, a plugin that holds a processor keeps
it and nothing is stopped. -/
theorem OnActivate_license_gate_witness :
    ( Plugin.OnActivate { exampleEnv with IsEnterpriseLicensedOrDevelopment := fun _ _ => false }
        examplePlugin).plugin = examplePlugin ∧
    ( Plugin.OnActivate { exampleEnv with IsEnterpriseLicensedOrDevelopment := fun _ _ => false }
        examplePlugin).trace = [.GetConfig, .GetLicense] :=
  ((OnActivate_license_gate _ examplePlugin).1 rfl).2

/-- C8: on the success path `initialize` makes exactly the calls: stop of a
held processor, `EnsureBotUser`, `ModerationTargetsList`, `ThresholdValue`,
those of `initModerator`, then `newPostProcessor` (once) on the bot ID, the
moderator, the threshold, `ModerateAllUsers` and the target list those calls
returned, then `start` (once) on the processor it returned with the plugin's
host API; `processor` is that processor and the result is nil. Conversely,
`processor` is non-nil on return only on the success path. -/
theorem initialize_success_path (env : Env) (p : Plugin) :
    (SuccessPath env p →
      ( Plugin.initialize env p).trace =
        stopHeld p.processor ++
          ([.EnsureBotUser { Username := p.configuration.BotUsername },
            .ModerationTargetsList, .ThresholdValue] ++
           ((initModerator env p.configuration).trace ++
            [.newPostProcessor
                (env.EnsureBotUser { Username := p.configuration.BotUsername }).1
                (initModerator env p.configuration).moderator
                (env.ThresholdValue p.configuration).1
                p.configuration.ModerateAllUsers
                (env.ModerationTargetsList p.configuration),
             .start
                (env.newPostProcessor
                  (env.EnsureBotUser { Username := p.configuration.BotUsername }).1
                  (initModerator env p.configuration).moderator
                  (env.ThresholdValue p.configuration).1
                  p.configuration.ModerateAllUsers
                  (env.ModerationTargetsList p.configuration)).1
                p.API])) ∧
      ( Plugin.initialize env p).trace.countP Event.isNewPostProcessor = 1 ∧
      ( Plugin.initialize env p).trace.countP Event.isStart = 1 ∧
      ( Plugin.initialize env p).plugin.processor =
        (env.newPostProcessor
          (env.EnsureBotUser { Username := p.configuration.BotUsername }).1
          (initModerator env p.configuration).moderator
          (env.ThresholdValue p.configuration).1
          p.configuration.ModerateAllUsers
          (env.ModerationTargetsList p.configuration)).1 ∧
      ( Plugin.initialize env p).plugin.API = p.API ∧
      ( Plugin.initialize env p).err = none) ∧
    (( Plugin.initialize env p).plugin.processor ≠ none → SuccessPath env p) := by
  have hstopN : (stopHeld p.processor).countP Event.isNewPostProcessor = 0 :=
    stopHeld_countP _ _ (fun _ => rfl)
  have hstopS : (stopHeld p.processor).countP Event.isStart = 0 :=
    stopHeld_countP _ _ (fun _ => rfl)
  have hmodN : (initModerator env p.configuration).trace.countP Event.isNewPostProcessor = 0 :=
    initModerator_trace_countP _ _ _ (fun _ => rfl) (fun _ => rfl) (fun _ _ => rfl)
  have hmodS : (initModerator env p.configuration).trace.countP Event.isStart = 0 :=
    initModerator_trace_countP _ _ _ (fun _ => rfl) (fun _ => rfl) (fun _ _ => rfl)
  unfold SuccessPath
  show ((_ ∧ (env.EnsureBotUser p.bot).2 = none ∧ _ ∧ _ ∧ _ ∧
      (env.newPostProcessor (env.EnsureBotUser p.bot).1 _ _ _ _).2 = none) →
      (_ = stopHeld p.processor ++ ([.EnsureBotUser p.bot, _, _] ++ (_ ++
        [.newPostProcessor (env.EnsureBotUser p.bot).1 _ _ _ _,
         .start (env.newPostProcessor (env.EnsureBotUser p.bot).1 _ _ _ _).1 _]))) ∧ _ ∧ _ ∧
      _ = (env.newPostProcessor (env.EnsureBotUser p.bot).1 _ _ _ _).1 ∧ _ ∧ _) ∧
    (_ → (_ ∧ (env.EnsureBotUser p.bot).2 = none ∧ _ ∧ _ ∧ _ ∧
      (env.newPostProcessor (env.EnsureBotUser p.bot).1 _ _ _ _).2 = none))
  rcases initialize_cases env p with hen | ⟨hen, ⟨botID, e, hbot⟩ | ⟨botID, hbot, hno |
    ⟨hno, ⟨thr, e, hthr⟩ | ⟨thr, hthr, ⟨e, hmod⟩ | ⟨hmod, ⟨proc, e, hproc⟩ | ⟨proc, hproc⟩⟩⟩⟩⟩⟩
  · rw [initialize_disabled env p hen]
    simp [hen, Plugin.cleared]
  · rw [initialize_bot_failed env p botID e hen hbot]
    simp [hbot, Plugin.cleared]
  · rw [initialize_inert_path env p botID hen hbot hno]
    simp only [targetsNoUsers, Bool.and_eq_true, decide_eq_true_eq, Bool.not_eq_true',
      List.length_eq_zero] at hno
    simp [hno, Plugin.cleared]
  · rw [initialize_threshold_failed env p botID thr e hen hbot hno hthr]
    simp [hthr, Plugin.cleared]
  · rw [initialize_moderator_failed env p botID thr e hen hbot hno hthr hmod]
    simp [hmod, Plugin.cleared]
  · rw [initialize_processor_failed env p botID thr proc e hen hbot hno hthr hmod hproc]
    simp [hbot, hthr, hproc, Plugin.cleared]
  · rw [initialize_started env p botID thr proc hen hbot hno hthr hmod hproc]
    have hno' : env.ModerationTargetsList p.configuration ≠ [] ∨
        p.configuration.ModerateAllUsers = true := by
      by_cases ht : env.ModerationTargetsList p.configuration = []
      · right
        simpa [targetsNoUsers, ht] using hno
      · exact Or.inl ht
    refine ⟨fun _ => ⟨?_, ?_, ?_, ?_, rfl, rfl⟩, fun _ => ⟨hen, ?_, hno', ?_, hmod, ?_⟩⟩
    · simp [hbot, hthr, hproc]
    · simp only [List.countP_append, List.countP_cons, List.countP_nil, hstopN, hmodN]
      rfl
    · simp only [List.countP_append, List.countP_cons, List.countP_nil, hstopS, hmodS]
      rfl
    all_goals simp [hbot, hthr, hproc]

/-- Witness of C8: one targeted user, every collaborator succeeds; processor
`5` is replaced by the constructed processor `7`. -/
theorem initialize_success_path_witness :
    ( Plugin.initialize targetedEnv examplePlugin).trace =
      [.stop 5, .EnsureBotUser { Username := "moderator" }, .ModerationTargetsList,
       .ThresholdValue,
       .azureNew { Endpoint := "https://example.test", APIKey := "key" },
       .LogInfo "Azure AI Content Safety moderator initialized",
       .newPostProcessor "bot-id" (some 1) 80 false ["user-1"],
       .start (some 7) 3] ∧
    ( Plugin.initialize targetedEnv examplePlugin).plugin.processor = some 7 :=
  have h := (initialize_success_path targetedEnv examplePlugin).1
    ⟨rfl, rfl, Or.inl (by decide), rfl, rfl, rfl⟩
  ⟨h.1, h.2.2.2.1⟩

/-- C9: for a configuration with `Enabled == false`, whatever its other
fields and whatever the collaborators would answer, `initialize` returns nil,
leaves `processor` nil, and its only calls are the stop of a held processor and
one info log: no `EnsureBotUser`, no target list, no threshold parse, no
moderator or processor construction, no `start`. -/
theorem initialize_disabled_does_nothing (env : Env) (p : Plugin)
    (hen : p.configuration.Enabled = false) :
    ( Plugin.initialize env p).err = none ∧
    ( Plugin.initialize env p).plugin.processor = none ∧
    ( Plugin.initialize env p).trace =
      stopHeld p.processor ++ [.LogInfo "Content moderation is disabled"] ∧
    ( Plugin.initialize env p).trace.countP Event.isEnsureBotUser = 0 ∧
    ( Plugin.initialize env p).trace.countP Event.pastBot = 0 := by
  rw [initialize_disabled env p hen]
  cases hp : p.processor <;>
    simp [stopHeld, Plugin.cleared, Event.isEnsureBotUser, Event.pastBot, Event.pastGuard,
      Event.isModerationTargetsList, Event.isThresholdValue, Event.isAzureNew,
      Event.isNewPostProcessor, Event.isStart]

/-- Witness of C9: a disabled configuration with an unknown backend type and
an empty bot name, with collaborators that would all fail. -/
theorem initialize_disabled_does_nothing_witness :
    ( Plugin.initialize
        { exampleEnv with
          EnsureBotUser := fun _ => ("", some (.leaf "no bot"))
          ThresholdValue := fun _ => (0, some (.leaf "bad threshold")) }
        { examplePlugin with
          configuration :=
            { exampleConfig with Enabled := false, «Type» := "other", BotUsername := "" } }).err
      = none :=
  (initialize_disabled_does_nothing _ _ rfl).1

/-- C10: for an enabled configuration `initialize` calls `EnsureBotUser`
exactly once, with a bot whose `Username` is `config.BotUsername`; the only
calls before it are the stop of a held processor, so it precedes the target
check, the threshold parse and every construction; and when it fails,
`initialize` returns that failure wrapped with "could not initialize bot user"
and makes no further call, whatever the targets, the threshold and the backend
type are. -/
theorem initialize_bot_first (env : Env) (p : Plugin)
    (hen : p.configuration.Enabled = true) :
    ( Plugin.initialize env p).trace.countP Event.isEnsureBotUser = 1 ∧
    (∃ rest, ( Plugin.initialize env p).trace =
        stopHeld p.processor ++
          Event.EnsureBotUser { Username := p.configuration.BotUsername } :: rest ∧
      (stopHeld p.processor).countP Event.pastBot = 0 ∧
      (stopHeld p.processor).countP Event.isEnsureBotUser = 0 ∧
      rest.countP Event.isEnsureBotUser = 0 ∧
      (∀ e, (env.EnsureBotUser { Username := p.configuration.BotUsername }).2 = some e →
        rest = [])) ∧
    (∀ e, (env.EnsureBotUser { Username := p.configuration.BotUsername }).2 = some e →
      ( Plugin.initialize env p).err = some (errors.Wrap e "could not initialize bot user") ∧
      ( Plugin.initialize env p).plugin.processor = none) := by
  have hstopB : (stopHeld p.processor).countP Event.pastBot = 0 :=
    stopHeld_countP _ _ (fun _ => rfl)
  have hstopE : (stopHeld p.processor).countP Event.isEnsureBotUser = 0 :=
    stopHeld_countP _ _ (fun _ => rfl)
  have hmodE : (initModerator env p.configuration).trace.countP Event.isEnsureBotUser = 0 :=
    initModerator_trace_countP _ _ _ (fun _ => rfl) (fun _ => rfl) (fun _ _ => rfl)
  show _ ∧ (∃ rest, _ = stopHeld p.processor ++ Event.EnsureBotUser p.bot :: rest ∧ _ ∧ _ ∧ _ ∧
    (∀ e, (env.EnsureBotUser p.bot).2 = some e → rest = [])) ∧
    (∀ e, (env.EnsureBotUser p.bot).2 = some e → _)
  rcases initialize_cases env p with hdis | ⟨-, ⟨botID, e, hbot⟩ | ⟨botID, hbot, hno |
    ⟨hno, ⟨thr, e, hthr⟩ | ⟨thr, hthr, ⟨e, hmod⟩ | ⟨hmod, ⟨proc, e, hproc⟩ | ⟨proc, hproc⟩⟩⟩⟩⟩⟩
  · simp [hen] at hdis
  · rw [initialize_bot_failed env p botID e hen hbot]
    refine ⟨?_, ⟨_, rfl, hstopB, hstopE, rfl, fun _ _ => rfl⟩, ?_⟩
    · simp only [List.countP_append, List.countP_cons, List.countP_nil, hstopE]
      rfl
    · intro e' he'
      simp_all [Plugin.cleared]
  · rw [initialize_inert_path env p botID hen hbot hno]
    refine ⟨?_, ⟨_, rfl, hstopB, hstopE, ?_, ?_⟩, ?_⟩
    all_goals first
      | (simp only [List.append_eq, List.countP_append, List.countP_cons, List.countP_nil, hstopE,
          hmodE]; rfl)
      | simp [hbot]
  · rw [initialize_threshold_failed env p botID thr e hen hbot hno hthr]
    refine ⟨?_, ⟨_, rfl, hstopB, hstopE, ?_, ?_⟩, ?_⟩
    all_goals first
      | (simp only [List.append_eq, List.countP_append, List.countP_cons, List.countP_nil, hstopE,
          hmodE]; rfl)
      | simp [hbot]
  · rw [initialize_moderator_failed env p botID thr e hen hbot hno hthr hmod]
    refine ⟨?_, ⟨_, rfl, hstopB, hstopE, ?_, ?_⟩, ?_⟩
    all_goals first
      | (simp only [List.append_eq, List.countP_append, List.countP_cons, List.countP_nil, hstopE,
          hmodE]; rfl)
      | simp [hbot]
  · rw [initialize_processor_failed env p botID thr proc e hen hbot hno hthr hmod hproc]
    refine ⟨?_, ⟨_, rfl, hstopB, hstopE, ?_, ?_⟩, ?_⟩
    all_goals first
      | (simp only [List.append_eq, List.countP_append, List.countP_cons, List.countP_nil, hstopE,
          hmodE]; rfl)
      | simp [hbot]
  · rw [initialize_started env p botID thr proc hen hbot hno hthr hmod hproc]
    refine ⟨?_, ⟨_, rfl, hstopB, hstopE, ?_, ?_⟩, ?_⟩
    all_goals first
      | (simp only [List.append_eq, List.countP_append, List.countP_cons, List.countP_nil, hstopE,
          hmodE]; rfl)
      | simp [hbot]

/-- Witness of C10: the bot provisioning fails under a configuration that
targets no users, has an invalid threshold and names an unknown backend. -/
theorem initialize_bot_first_witness :
    ( Plugin.initialize
        { exampleEnv with
          EnsureBotUser := fun _ => ("", some (.leaf "no bot"))
          ThresholdValue := fun _ => (0, some (.leaf "bad threshold")) }
        { examplePlugin with
          configuration := { exampleConfig with «Type» := "other" } }).err
      = some (errors.Wrap (.leaf "no bot") "could not initialize bot user") :=
  ((initialize_bot_first _ _ rfl).2.2 (.leaf "no bot") rfl).1

end ContentModeration
